import Mathlib

/-!
Verification of the `LoggingLightRAG` usage-logging wrapper
(`lightrag_expriments/notebooks/lightraglogger.py`).

The wrapper intercepts `insert`/`query`, inspects the delegate's response
for a `'usage'` field, accumulates token counters and appends JSON records
to `api_usage_log.json`.  We embed the wrapper state and the three
state-changing routines (`_log_initialization`, `_write_to_file`,
`_log_api_usage`) together with `insert` and `query`.  The delegate
(the external LightRAG engine) is abstracted: each call receives the
delegate's outcome as an explicit `Except`/`Option` value.  File contents
are modelled as the list of records appended so far; the `usage.log` text
log is modelled as the list of (level, message-kind) lines emitted, and
the wall-clock timestamp of a record is not modelled.
-/

namespace LightragLogger

/-- The `'usage'` sub-mapping of a delegate response: it may or may not
contain a `'total_tokens'` entry (`response['usage'].get('total_tokens', 0)`
in the source).  Token counts are natural numbers. -/
structure UsageInfo where
  total_tokens : Option Nat
deriving DecidableEq, Repr

/-- A (non-`None`) delegate response, as consumed by `_log_api_usage`:
the only part the wrapper inspects is the optional `'usage'` field. -/
structure Response where
  usage : Option UsageInfo
deriving DecidableEq, Repr

/-- The `operation` string passed to `_log_api_usage`: `"insert"` or `"query"`. -/
inductive Operation where
  | insertOp
  | queryOp
deriving DecidableEq, Repr

/-- One JSON record appended to `api_usage_log.json` by `_log_api_usage`
(the source's `log_data` dict; its wall-clock `timestamp` field is not
modelled). -/
structure UsageRecord where
  api_call : Nat
  operation : Operation
  token_usage : Nat
  total_token_usage : Nat
deriving DecidableEq, Repr

/-- Python `logging` levels used by the source. -/
inductive LogLevel where
  | info
  | warning
  | error
deriving DecidableEq, Repr

/-- The distinct log messages emitted by the source, one constructor per
`logging.*(...)` call site. -/
inductive LogMsg where
  | loggerInit
  | initParams
  | attrLine
  | initWritten
  | initError
  | dataWritten
  | writeError
  | apiCallLine
  | tokenUsageLine
  | totalTokenUsageLine
  | noUsageWarning
  | insertNone
  | inserted
  | insertError
  | queryError
deriving DecidableEq, Repr

/-- An exception raised by the delegate; identity is an opaque code so that
"the same exception is re-raised" is expressible. -/
structure Exn where
  code : Nat
deriving DecidableEq, Repr

/-- The attribute mapping captured by `_log_initialization`
(`asdict(self)`/`vars(self)`): a key/value dictionary. -/
abbrev Attrs : Type := List (String × String)

instance {ε α : Type} [DecidableEq ε] [DecidableEq α] : DecidableEq (Except ε α) :=
  fun a b =>
    match a, b with
    | Except.error e, Except.error e' =>
      if h : e = e' then isTrue (by rw [h]) else isFalse (by intro hh; cases hh; exact h rfl)
    | Except.ok x, Except.ok y =>
      if h : x = y then isTrue (by rw [h]) else isFalse (by intro hh; cases hh; exact h rfl)
    | Except.error _, Except.ok _ => isFalse (by intro hh; cases hh)
    | Except.ok _, Except.error _ => isFalse (by intro hh; cases hh)

/-- The wrapper's mutable state plus the files it writes:
`api_call_count` and `total_token_usage` are the counters set to `0` in
`__init__`; `usageLog` is the sequence of records appended to
`api_usage_log.json`; `initFile` is the content of `initialization.json`
(`none` when never written); `log` is the sequence of lines in `usage.log`. -/
structure State where
  api_call_count : Nat
  total_token_usage : Nat
  usageLog : List UsageRecord
  initFile : Option Attrs
  log : List (LogLevel × LogMsg)
deriving DecidableEq, Repr

/-- `_write_to_file("api_usage_log.json", log_data)`: appends the record and
an info line.  (The source wraps the OS write in `try/except`; OS-level
write failures are outside the embedding, which models the write as
succeeding.) -/
def _write_to_file (s : State) (r : UsageRecord) : State :=
  { s with
    usageLog := s.usageLog ++ [r]
    log := s.log ++ [(LogLevel.info, LogMsg.dataWritten)] }

/-- `_log_api_usage(operation, response)`: increments `api_call_count`
unconditionally, then, when the response has a `'usage'` field, adds
`total_tokens` (default `0`) to `total_token_usage`, logs three info lines
and appends a record; otherwise logs a warning. -/
def _log_api_usage (s : State) (operation : Operation) (response : Response) : State :=
  let s1 : State := { s with api_call_count := s.api_call_count + 1 }
  match response.usage with
  | some u =>
    let token_usage := u.total_tokens.getD 0
    let s2 : State := { s1 with total_token_usage := s1.total_token_usage + token_usage }
    let s3 : State := { s2 with
      log := s2.log ++ [(LogLevel.info, LogMsg.apiCallLine),
                        (LogLevel.info, LogMsg.tokenUsageLine),
                        (LogLevel.info, LogMsg.totalTokenUsageLine)] }
    _write_to_file s3
      { api_call := s2.api_call_count
        operation := operation
        token_usage := token_usage
        total_token_usage := s2.total_token_usage }
  | none =>
    { s1 with log := s1.log ++ [(LogLevel.warning, LogMsg.noUsageWarning)] }

/-- `_log_initialization()`: logs the header, then tries to capture the
attribute dict and write it to `initialization.json`; any exception while
capturing (`capture = .error _`) or writing (`writeOk = false`) is caught
and logged at error level, and the snapshot file is not (fully) written.
The `capture`/`writeOk` parameters embed the `try/except` structure of the
source; in the program itself the capture is always `captureAttributes`
below, whose `isinstance` call raises `TypeError` deterministically, so the
`Except.ok` branch is dead code there. -/
def _log_initialization (s : State) (capture : Except Exn Attrs) (writeOk : Bool) :
    State :=
  let s1 : State := { s with log := s.log ++ [(LogLevel.info, LogMsg.initParams)] }
  match capture with
  | Except.error _ =>
    { s1 with log := s1.log ++ [(LogLevel.error, LogMsg.initError)] }
  | Except.ok attributes =>
    let s2 : State :=
      { s1 with log := s1.log ++ attributes.map (fun _ => (LogLevel.info, LogMsg.attrLine)) }
    if writeOk then
      { s2 with
        initFile := some attributes
        log := s2.log ++ [(LogLevel.info, LogMsg.initWritten)] }
    else
      { s2 with log := s2.log ++ [(LogLevel.error, LogMsg.initError)] }

/-- `__init__`: configures the logger (one info line), zeroes both counters,
then runs `_log_initialization`.  `capture` is the outcome of
`asdict(self)`/`vars(self)` and `writeOk` whether the snapshot write
succeeds. -/
def init (capture : Except Exn Attrs) (writeOk : Bool) : State :=
  _log_initialization
    { api_call_count := 0
      total_token_usage := 0
      usageLog := []
      initFile := none
      log := [(LogLevel.info, LogMsg.loggerInit)] }
    capture writeOk

/-- The `TypeError` raised by `isinstance(self, dataclass)` at line 41:
`dataclass` is the decorator function imported from `dataclasses`, not a
type, so `isinstance` rejects it as its second argument. -/
def isinstanceTypeError : Exn := { code := 0 }

/-- The attribute capture the program actually performs (line 41):
`asdict(self) if isinstance(self, dataclass) else vars(self)`.  The
`isinstance(self, dataclass)` test raises `TypeError` before either branch
is taken (`dataclass` is a function, not a type), so the capture fails on
every construction and never produces an attribute mapping. -/
def captureAttributes : Except Exn Attrs := Except.error isinstanceTypeError

/-- `insert(document)`: the delegate's `ainsert` outcome is `d`
(exception, `None`, or a response).  Returns the value handed back to the
caller together with the new state. -/
def insert (s : State) (d : Except Exn (Option Response)) :
    Except Exn (Option Response) × State :=
  match d with
  | Except.error e =>
    (Except.error e, { s with log := s.log ++ [(LogLevel.error, LogMsg.insertError)] })
  | Except.ok none =>
    (Except.ok none, { s with log := s.log ++ [(LogLevel.warning, LogMsg.insertNone)] })
  | Except.ok (some r) =>
    let s1 := _log_api_usage s Operation.insertOp r
    (Except.ok (some r), { s1 with log := s1.log ++ [(LogLevel.info, LogMsg.inserted)] })

/-- `query(query, param)`: the delegate's `super().query` outcome is `d`.
Returns the value handed back to the caller together with the new state. -/
def query (s : State) (d : Except Exn Response) : Except Exn Response × State :=
  match d with
  | Except.error e =>
    (Except.error e, { s with log := s.log ++ [(LogLevel.error, LogMsg.queryError)] })
  | Except.ok r =>
    (Except.ok r, _log_api_usage s Operation.queryOp r)

/-- One call to the wrapper, with its delegate outcome. -/
inductive Call where
  | insertCall (d : Except Exn (Option Response))
  | queryCall (d : Except Exn Response)
deriving DecidableEq, Repr

/-- The state change of one call (the returned value discarded). -/
def step (s : State) : Call → State
  | Call.insertCall d => (insert s d).2
  | Call.queryCall d => (query s d).2

/-- Running a sequence of calls. -/
def run (s : State) : List Call → State
  | [] => s
  | c :: cs => run (step s c) cs

/-- The successful, non-`None` delegate response of a call, if any. -/
def callResponse? : Call → Option Response
  | Call.insertCall (Except.ok (some r)) => some r
  | Call.queryCall (Except.ok r) => some r
  | _ => none

/-- When a call succeeds with a usage-bearing response: the operation and
the token count the wrapper extracts (`total_tokens` defaulting to `0`). -/
def callUsage? : Call → Option (Operation × Nat)
  | Call.insertCall (Except.ok (some r)) =>
    r.usage.map (fun u => (Operation.insertOp, u.total_tokens.getD 0))
  | Call.queryCall (Except.ok r) =>
    r.usage.map (fun u => (Operation.queryOp, u.total_tokens.getD 0))
  | _ => none

/-- The records `_log_api_usage` appends for a sequence of usage-bearing
calls, starting from call counter `c` and running total `t`. -/
def mkRecords (c t : Nat) : List (Operation × Nat) → List UsageRecord
  | [] => []
  | (op, tk) :: rest =>
    { api_call := c + 1, operation := op, token_usage := tk,
      total_token_usage := t + tk } :: mkRecords (c + 1) (t + tk) rest

/-! ### Helper lemmas -/

lemma init_api_call_count (capture : Except Exn Attrs) (writeOk : Bool) :
    (init capture writeOk).api_call_count = 0 := by
  cases capture <;> cases writeOk <;> rfl

lemma init_total_token_usage (capture : Except Exn Attrs) (writeOk : Bool) :
    (init capture writeOk).total_token_usage = 0 := by
  cases capture <;> cases writeOk <;> rfl

lemma init_usageLog (capture : Except Exn Attrs) (writeOk : Bool) :
    (init capture writeOk).usageLog = [] := by
  cases capture <;> cases writeOk <;> rfl

/-- Effect of one usage-bearing call on the counters and the JSON log. -/
lemma step_usage (s : State) (c : Call) (op : Operation) (t : Nat)
    (h : callUsage? c = some (op, t)) :
    (step s c).api_call_count = s.api_call_count + 1 ∧
    (step s c).total_token_usage = s.total_token_usage + t ∧
    (step s c).usageLog = s.usageLog ++
      [{ api_call := s.api_call_count + 1, operation := op, token_usage := t,
         total_token_usage := s.total_token_usage + t }] := by
  cases c with
  | insertCall d =>
    cases d with
    | error e => simp [callUsage?] at h
    | ok o =>
      cases o with
      | none => simp [callUsage?] at h
      | some r =>
        cases hr : r.usage with
        | none => simp [callUsage?, hr] at h
        | some u =>
          simp only [callUsage?, hr, Option.map_some, Option.some.injEq,
            Prod.mk.injEq] at h
          obtain ⟨rfl, rfl⟩ := h
          simp [step, insert, _log_api_usage, _write_to_file, hr]
  | queryCall d =>
    cases d with
    | error e => simp [callUsage?] at h
    | ok r =>
      cases hr : r.usage with
      | none => simp [callUsage?, hr] at h
      | some u =>
        simp only [callUsage?, hr, Option.map_some, Option.some.injEq,
          Prod.mk.injEq] at h
        obtain ⟨rfl, rfl⟩ := h
        simp [step, query, _log_api_usage, _write_to_file, hr]

/-- Running a list of usage-bearing calls: counters accumulate and the JSON
log grows by `mkRecords`. -/
lemma run_usage (calls : List Call) (pairs : List (Operation × Nat))
    (h : calls.map callUsage? = pairs.map some) (s : State) :
    (run s calls).api_call_count = s.api_call_count + pairs.length ∧
    (run s calls).total_token_usage = s.total_token_usage + (pairs.map Prod.snd).sum ∧
    (run s calls).usageLog =
      s.usageLog ++ mkRecords s.api_call_count s.total_token_usage pairs := by
  induction calls generalizing pairs s with
  | nil =>
    cases pairs with
    | nil => simp [run, mkRecords]
    | cons p ps => simp at h
  | cons c cs ih =>
    cases pairs with
    | nil => simp at h
    | cons p ps =>
      obtain ⟨op, t⟩ := p
      simp only [List.map_cons, List.cons.injEq] at h
      obtain ⟨h1, h2⟩ := h
      obtain ⟨hc, ht, hl⟩ := step_usage s c op t h1
      obtain ⟨ic, it, il⟩ := ih ps h2 (step s c)
      refine ⟨?_, ?_, ?_⟩
      · rw [run, ic, hc, List.length_cons]
        omega
      · rw [run, it, ht, List.map_cons, List.sum_cons]
        omega
      · rw [run, il, hl, hc, ht, mkRecords, List.append_assoc]
        rfl

lemma mkRecords_length (ps : List (Operation × Nat)) :
    ∀ c t, (mkRecords c t ps).length = ps.length := by
  induction ps with
  | nil => intro c t; rfl
  | cons p rest ih =>
    intro c t
    obtain ⟨op, tk⟩ := p
    simp [mkRecords, ih]

lemma mkRecords_api_call_gt (ps : List (Operation × Nat)) :
    ∀ c t r, r ∈ mkRecords c t ps → c < r.api_call := by
  induction ps with
  | nil => intro c t r hr; simp [mkRecords] at hr
  | cons p rest ih =>
    intro c t r hr
    obtain ⟨op, tk⟩ := p
    simp only [mkRecords, List.mem_cons] at hr
    cases hr with
    | inl h => subst h; exact Nat.lt_succ_self c
    | inr h => exact Nat.lt_trans (Nat.lt_succ_self c) (ih (c + 1) (t + tk) r h)

lemma mkRecords_pairwise (ps : List (Operation × Nat)) :
    ∀ c t, ((mkRecords c t ps).map (fun r => r.api_call)).Pairwise (· < ·) := by
  induction ps with
  | nil => intro c t; simp [mkRecords]
  | cons p rest ih =>
    intro c t
    obtain ⟨op, tk⟩ := p
    simp only [mkRecords, List.map_cons, List.pairwise_cons]
    refine ⟨?_, ih (c + 1) (t + tk)⟩
    intro b hb
    simp only [List.mem_map] at hb
    obtain ⟨r, hr, rfl⟩ := hb
    exact mkRecords_api_call_gt rest (c + 1) (t + tk) r hr

lemma mkRecords_get_total (ps : List (Operation × Nat)) :
    ∀ c t k (hk : k < (mkRecords c t ps).length),
      ((mkRecords c t ps).get ⟨k, hk⟩).total_token_usage =
        t + ((ps.map Prod.snd).take (k + 1)).sum := by
  induction ps with
  | nil => intro c t k hk; simp [mkRecords] at hk
  | cons p rest ih =>
    intro c t k hk
    obtain ⟨op, tk⟩ := p
    cases k with
    | zero => simp [mkRecords]
    | succ k =>
      have hk' : k < (mkRecords (c + 1) (t + tk) rest).length := by
        simpa [mkRecords] using hk
      have := ih (c + 1) (t + tk) k hk'
      simp only [mkRecords, List.get_cons_succ, List.map_cons, List.take_succ_cons,
        List.sum_cons] at this ⊢
      rw [this, Nat.add_assoc]

/-- Monotonicity of both counters under any single call. -/
lemma step_mono (s : State) (c : Call) :
    s.api_call_count ≤ (step s c).api_call_count ∧
    s.total_token_usage ≤ (step s c).total_token_usage := by
  cases c with
  | insertCall d =>
    cases d with
    | error e => simp [step, insert]
    | ok o =>
      cases o with
      | none => simp [step, insert]
      | some r =>
        cases hr : r.usage with
        | none => simp [step, insert, _log_api_usage, hr]
        | some u => simp [step, insert, _log_api_usage, _write_to_file, hr]
  | queryCall d =>
    cases d with
    | error e => simp [step, query]
    | ok r =>
      cases hr : r.usage with
      | none => simp [step, query, _log_api_usage, hr]
      | some u => simp [step, query, _log_api_usage, _write_to_file, hr]

/-- Monotonicity of both counters under any sequence of calls. -/
lemma run_mono (calls : List Call) :
    ∀ s : State,
      s.api_call_count ≤ (run s calls).api_call_count ∧
      s.total_token_usage ≤ (run s calls).total_token_usage := by
  induction calls with
  | nil => intro s; exact ⟨Nat.le_refl _, Nat.le_refl _⟩
  | cons c cs ih =>
    intro s
    obtain ⟨h1, h2⟩ := step_mono s c
    obtain ⟨i1, i2⟩ := ih (step s c)
    exact ⟨Nat.le_trans h1 i1, Nat.le_trans h2 i2⟩

/-! ### Claim theorems -/

/-- Claim C1: after any sequence of `N` insert/query calls whose delegate
responses all carry a `'usage'` field with token counts `t1..tN`,
`total_token_usage` equals `t1+..+tN` and `api_call_count` equals `N`
(both counters starting at `0` at construction). -/
theorem counters_accumulate_usage (capture : Except Exn Attrs) (writeOk : Bool)
    (calls : List Call) (pairs : List (Operation × Nat))
    (h : calls.map callUsage? = pairs.map some) :
    (run (init capture writeOk) calls).total_token_usage = (pairs.map Prod.snd).sum ∧
    (run (init capture writeOk) calls).api_call_count = pairs.length := by
  obtain ⟨hc, ht, -⟩ := run_usage calls pairs h (init capture writeOk)
  rw [init_api_call_count] at hc
  rw [init_total_token_usage] at ht
  exact ⟨by omega, by omega⟩

theorem counters_accumulate_usage_witness :
    (run (init (Except.ok ([] : Attrs)) true)
        [Call.queryCall (Except.ok ⟨some ⟨some 42⟩⟩),
         Call.insertCall (Except.ok (some ⟨some ⟨some 8⟩⟩))]).total_token_usage =
      ([(Operation.queryOp, 42), (Operation.insertOp, 8)].map Prod.snd).sum ∧
    (run (init (Except.ok ([] : Attrs)) true)
        [Call.queryCall (Except.ok ⟨some ⟨some 42⟩⟩),
         Call.insertCall (Except.ok (some ⟨some ⟨some 8⟩⟩))]).api_call_count =
      [(Operation.queryOp, 42), (Operation.insertOp, 8)].length :=
  counters_accumulate_usage (Except.ok []) true
    [Call.queryCall (Except.ok ⟨some ⟨some 42⟩⟩),
     Call.insertCall (Except.ok (some ⟨some ⟨some 8⟩⟩))]
    [(Operation.queryOp, 42), (Operation.insertOp, 8)] rfl

/-- Claim C2 counterexample: a `query` whose response lacks a `'usage'`
field does NOT leave `api_call_count` unchanged — `_log_api_usage`
increments it before the `'usage' in response` check. -/
theorem no_usage_call_count_cex :
    ¬ ((query (init (Except.ok ([] : Attrs)) true) (Except.ok ⟨none⟩)).2.api_call_count
        = (init (Except.ok ([] : Attrs)) true).api_call_count) := by
  decide

/-- Claim C2 (amended): for every insert or query call whose delegate
response lacks a `'usage'` field, a warning is logged, `total_token_usage`
is unchanged and no record is appended to `api_usage_log.json`, but
`api_call_count` is incremented by one. -/
theorem no_usage_warning_counters (s : State) (r : Response)
    (hu : r.usage = none) :
    ((insert s (Except.ok (some r))).2.api_call_count = s.api_call_count + 1 ∧
     (insert s (Except.ok (some r))).2.total_token_usage = s.total_token_usage ∧
     (insert s (Except.ok (some r))).2.usageLog = s.usageLog ∧
     (LogLevel.warning, LogMsg.noUsageWarning) ∈ (insert s (Except.ok (some r))).2.log) ∧
    ((query s (Except.ok r)).2.api_call_count = s.api_call_count + 1 ∧
     (query s (Except.ok r)).2.total_token_usage = s.total_token_usage ∧
     (query s (Except.ok r)).2.usageLog = s.usageLog ∧
     (LogLevel.warning, LogMsg.noUsageWarning) ∈ (query s (Except.ok r)).2.log) := by
  simp [insert, query, _log_api_usage, hu]

theorem no_usage_warning_counters_witness :
    (query (init (Except.ok ([] : Attrs)) true) (Except.ok ⟨none⟩)).2.total_token_usage =
      (init (Except.ok ([] : Attrs)) true).total_token_usage :=
  (no_usage_warning_counters (init (Except.ok ([] : Attrs)) true) ⟨none⟩ rfl).2.2.1

/-- Claim C3: after `N` usage-bearing calls, `api_usage_log.json` holds
exactly `N` records, the `k`-th record's `total_token_usage` is the prefix
sum `t1+..+t(k+1)`, and the records' call indices are strictly increasing. -/
theorem usage_log_records (capture : Except Exn Attrs) (writeOk : Bool)
    (calls : List Call) (pairs : List (Operation × Nat))
    (h : calls.map callUsage? = pairs.map some) :
    (run (init capture writeOk) calls).usageLog.length = pairs.length ∧
    (∀ k (hk : k < (run (init capture writeOk) calls).usageLog.length),
      ((run (init capture writeOk) calls).usageLog.get ⟨k, hk⟩).total_token_usage =
        ((pairs.map Prod.snd).take (k + 1)).sum) ∧
    ((run (init capture writeOk) calls).usageLog.map (fun r => r.api_call)).Pairwise
      (· < ·) := by
  obtain ⟨-, -, hl⟩ := run_usage calls pairs h (init capture writeOk)
  rw [init_usageLog, init_api_call_count, init_total_token_usage,
    List.nil_append] at hl
  refine ⟨?_, ?_, ?_⟩
  · rw [hl]
    exact mkRecords_length pairs 0 0
  · intro k hk
    have hk' : k < (mkRecords 0 0 pairs).length := by rw [← hl]; exact hk
    have hg := List.get_of_eq hl ⟨k, hk⟩
    rw [hg]
    exact (mkRecords_get_total pairs 0 0 k hk').trans (Nat.zero_add _)
  · rw [hl]
    exact mkRecords_pairwise pairs 0 0

theorem usage_log_records_witness :
    (run (init (Except.ok ([("working_dir", "rag")] : Attrs)) true)
        [Call.insertCall (Except.ok (some ⟨some ⟨some 5⟩⟩)),
         Call.queryCall (Except.ok ⟨some ⟨some 7⟩⟩)]).usageLog.length =
      [(Operation.insertOp, 5), (Operation.queryOp, 7)].length :=
  (usage_log_records (Except.ok [("working_dir", "rag")]) true
    [Call.insertCall (Except.ok (some ⟨some ⟨some 5⟩⟩)),
     Call.queryCall (Except.ok ⟨some ⟨some 7⟩⟩)]
    [(Operation.insertOp, 5), (Operation.queryOp, 7)] rfl).1

/-- Claim C4 (code bug): on every construction the attribute capture of
`_log_initialization` is `captureAttributes`, which raises `TypeError`
(line 41 passes the `dataclass` function to `isinstance`), so the error
path is always taken: `initialization.json` is never written, the failure
is logged at error level, and construction still completes with both
counters at `0` — contrary to the claim that the snapshot is written. -/
theorem initialization_snapshot_never_written (writeOk : Bool) :
    (init captureAttributes writeOk).initFile = none ∧
    (LogLevel.error, LogMsg.initError) ∈ (init captureAttributes writeOk).log ∧
    (init captureAttributes writeOk).api_call_count = 0 ∧
    (init captureAttributes writeOk).total_token_usage = 0 := by
  cases writeOk <;> simp [init, _log_initialization, captureAttributes]

/-- Claim C5: a delegate exception is propagated unchanged to the caller by
both `insert` and `query`, after an error line is appended to the log. -/
theorem delegate_exception_propagates (s : State) (e : Exn) :
    (insert s (Except.error e)).1 = Except.error e ∧
    (insert s (Except.error e)).2.log = s.log ++ [(LogLevel.error, LogMsg.insertError)] ∧
    (query s (Except.error e)).1 = Except.error e ∧
    (query s (Except.error e)).2.log = s.log ++ [(LogLevel.error, LogMsg.queryError)] := by
  simp [insert, query]

/-- Claim C6: an `insert` whose delegate result is `None` logs a warning,
leaves both counters and the JSON log unchanged, and returns `None`. -/
theorem insert_none_result (s : State) :
    (insert s (Except.ok none)).1 = Except.ok none ∧
    (insert s (Except.ok none)).2.api_call_count = s.api_call_count ∧
    (insert s (Except.ok none)).2.total_token_usage = s.total_token_usage ∧
    (insert s (Except.ok none)).2.usageLog = s.usageLog ∧
    (insert s (Except.ok none)).2.log = s.log ++ [(LogLevel.warning, LogMsg.insertNone)] := by
  simp [insert]

/-- Claim C7: a non-empty delegate response is returned to the caller
unchanged by both `insert` and `query`. -/
theorem response_returned_unchanged (s : State) (r : Response) :
    (insert s (Except.ok (some r))).1 = Except.ok (some r) ∧
    (query s (Except.ok r)).1 = Except.ok r := by
  simp [insert, query]

/-- Claim C8: both counters start at `0` at construction and no call or
sequence of calls ever decreases either counter. -/
theorem counters_monotone (capture : Except Exn Attrs) (writeOk : Bool)
    (s : State) (c : Call) (calls : List Call) :
    (init capture writeOk).api_call_count = 0 ∧
    (init capture writeOk).total_token_usage = 0 ∧
    s.api_call_count ≤ (step s c).api_call_count ∧
    s.total_token_usage ≤ (step s c).total_token_usage ∧
    s.api_call_count ≤ (run s calls).api_call_count ∧
    s.total_token_usage ≤ (run s calls).total_token_usage := by
  obtain ⟨h1, h2⟩ := step_mono s c
  obtain ⟨h3, h4⟩ := run_mono calls s
  exact ⟨init_api_call_count capture writeOk, init_total_token_usage capture writeOk,
    h1, h2, h3, h4⟩

/-- Claim C9: a response whose `'usage'` field lacks `'total_tokens'` is
accounted with token usage `0`: `total_token_usage` is unchanged,
`api_call_count` is incremented, and a record with `token_usage = 0` is
still appended. -/
theorem usage_without_total_tokens (s : State) (r : Response) (u : UsageInfo)
    (hu : r.usage = some u) (ht : u.total_tokens = none) :
    ((insert s (Except.ok (some r))).2.api_call_count = s.api_call_count + 1 ∧
     (insert s (Except.ok (some r))).2.total_token_usage = s.total_token_usage ∧
     (insert s (Except.ok (some r))).2.usageLog = s.usageLog ++
       [{ api_call := s.api_call_count + 1, operation := Operation.insertOp,
          token_usage := 0, total_token_usage := s.total_token_usage }]) ∧
    ((query s (Except.ok r)).2.api_call_count = s.api_call_count + 1 ∧
     (query s (Except.ok r)).2.total_token_usage = s.total_token_usage ∧
     (query s (Except.ok r)).2.usageLog = s.usageLog ++
       [{ api_call := s.api_call_count + 1, operation := Operation.queryOp,
          token_usage := 0, total_token_usage := s.total_token_usage }]) := by
  simp [insert, query, _log_api_usage, _write_to_file, hu, ht]

theorem usage_without_total_tokens_witness :
    (query (init (Except.ok ([] : Attrs)) true) (Except.ok ⟨some ⟨none⟩⟩)).2.total_token_usage =
      (init (Except.ok ([] : Attrs)) true).total_token_usage :=
  (usage_without_total_tokens (init (Except.ok ([] : Attrs)) true)
    ⟨some ⟨none⟩⟩ ⟨none⟩ rfl rfl).2.2.1

/-- Claim C10: when the delegate raises, neither counter changes and no
record is appended — usage accounting runs only after delegate success. -/
theorem exception_leaves_state_unchanged (s : State) (e : Exn) :
    (insert s (Except.error e)).2.api_call_count = s.api_call_count ∧
    (insert s (Except.error e)).2.total_token_usage = s.total_token_usage ∧
    (insert s (Except.error e)).2.usageLog = s.usageLog ∧
    (query s (Except.error e)).2.api_call_count = s.api_call_count ∧
    (query s (Except.error e)).2.total_token_usage = s.total_token_usage ∧
    (query s (Except.error e)).2.usageLog = s.usageLog := by
  simp [insert, query]

end LightragLogger
